import Mathlib

/-!
Verification development for the IndieTap Studio site scripts.

The two components under study are `js/localization.js` (class
`LocalizationManager`) and `js/policy-loader.js` (class `PolicyLoader`).
Both are vanilla DOM scripts; the embedding below models their state
(manager fields, browser localStorage, the relevant DOM nodes) as plain
Lean structures and each method as a pure state-transition function,
translated line by line from the JavaScript source.  Asynchronous
resolution (fetch results) is passed in as explicit inputs; timer
callbacks are modelled as separate "settle" functions that the event
loop runs later.
-/

/-- Model of a JavaScript value as found in the translation catalogs
(JSON: nested objects with string/number/bool/null leaves).  Objects are
association lists, mirroring JS object property lookup. -/
inductive JValue where
  | vNull : JValue
  | vStr (s : String) : JValue
  | vNum (n : Int) : JValue
  | vBool (b : Bool) : JValue
  | vObj (fields : List (String × JValue)) : JValue
deriving Repr

/-- JavaScript truthiness of a value: `null`, `""`, `0` and `false` are
falsy; every object (even empty) is truthy. -/
def truthy : JValue → Bool
  | .vNull => false
  | .vStr s => !(s == "")
  | .vNum n => !(n == 0)
  | .vBool b => b
  | .vObj _ => true

/-- Property lookup in a JS object modelled as an association list
(first binding wins; `setKey` keeps keys unique). -/
def jsLookup : List (String × JValue) → String → Option JValue
  | [], _ => none
  | (k, v) :: rest, key => if k = key then some v else jsLookup rest key

/-- Property write on a JS object: overwrites an existing binding in
place, otherwise appends. -/
def setKey (o : List (String × JValue)) (k : String) (v : JValue) :
    List (String × JValue) :=
  match o with
  | [] => [(k, v)]
  | (k2, v2) :: rest => if k2 = k then (k, v) :: rest else (k2, v2) :: setKey rest k v

/-- `v[k]` for a JS value: property lookup on objects; `undefined`
(modelled as `none`) on any non-object.  (String character indexing and
built-in properties such as `length` do not arise for the dotted keys
used by the catalogs and are not modelled.) -/
def jsIndex : JValue → String → Option JValue
  | .vObj fields, k => jsLookup fields k
  | _, _ => none

/-- Split a character list at every occurrence of a separator character,
like JS `String.prototype.split` with a one-character separator: the
result is always non-empty and `""` splits to `[""]`. -/
def splitCharList (sep : Char) : List Char → List (List Char)
  | [] => [[]]
  | c :: rest =>
    if c = sep then [] :: splitCharList sep rest
    else
      match splitCharList sep rest with
      | [] => [[c]]
      | l :: ls => (c :: l) :: ls

/-- JS `key.split(".")`. -/
def splitKey (key : String) : List String :=
  (splitCharList '.' key.data).map (fun l => String.mk l)

/-- The `for (const k of keys)` loop of
`LocalizationManager.getNestedTranslation` (localization.js:255-261):
at each segment, if the current value is truthy and its `k` property is
truthy, descend; otherwise return `null`. -/
def getNestedAux : Option JValue → List String → Option JValue
  | t, [] => t
  | t, k :: ks =>
    match t with
    | none => none
    | some tv =>
      if truthy tv then
        match jsIndex tv k with
        | some w => if truthy w then getNestedAux (some w) ks else none
        | none => none
      else none

/-- `LocalizationManager.getNestedTranslation` (localization.js:251-264):
split the dotted key and walk the active catalog with the truthiness
guard of the loop.  The first argument is
`this.translations[this.currentLang]` (possibly `undefined`). -/
def getNestedTranslation (cat : Option JValue) (key : String) : Option JValue :=
  getNestedAux cat (splitKey key)

/-- JS stringification as used by `textContent`/`placeholder`
assignment.  Only truthy values are ever assigned by the render pass;
catalogs hold strings at the leaves. -/
def jsToString : JValue → String
  | .vStr s => s
  | .vNum n => toString n
  | .vBool b => if b then "true" else "false"
  | .vNull => "null"
  | .vObj _ => "[object Object]"

/-- A DOM element carrying a `data-key` attribute, as read and written
by the render pass.  `inputType` is the `type` attribute (relevant only
when `tagName = "INPUT"`). -/
structure Element where
  dataKey : String
  tagName : String
  inputType : String
  textContent : String
  placeholder : String
deriving Repr, DecidableEq

/-- The body of the `elements.forEach` callback in
`LocalizationManager.updateTranslations` (localization.js:226-238):
resolve the element's key against the active catalog; if the result is
truthy, write it to `placeholder` for non-submit INPUT elements and to
`textContent` otherwise; if the resolution returned `null`, leave the
element untouched.  Total function: no exception can be raised. -/
def updateElement (cat : JValue) (e : Element) : Element :=
  match getNestedTranslation (some cat) e.dataKey with
  | none => e
  | some v =>
    if truthy v then
      if e.tagName == "INPUT" && e.inputType != "submit" then
        { e with placeholder := jsToString v }
      else
        { e with textContent := jsToString v }
    else e

example : getNestedTranslation (some (.vObj [("a", .vObj [("b", .vStr "X")])])) "a.b"
    = some (.vStr "X") := rfl
example : getNestedTranslation (some (.vObj [("a", .vObj [("b", .vStr "X")])])) "a.c"
    = none := rfl
example : getNestedTranslation (some (.vObj [("a", .vObj [("b", .vStr "X")])])) "z.y"
    = none := rfl
example : getNestedTranslation (some (.vObj [("a", .vObj [("b", .vStr "")])])) "a.b"
    = none := rfl

/-- Persistent per-origin localStorage, restricted to the two keys the
scripts use (`language`, `theme`).  `none` models an absent key
(`getItem` returning `null`). -/
structure Storage where
  language : Option String
  theme : Option String
deriving Repr, DecidableEq

/-- The slice of the DOM read and written by `LocalizationManager`:
the `[data-key]` elements, the document `lang` attribute and title, the
`.lang-current` display (if present on the page), the language selector
value (if present), the `data-theme` attribute of the root, the root
class list and the body class list.  `none` in an `Option` field means
the corresponding node is absent from the page. -/
structure Dom where
  elements : List Element
  docLang : String
  title : String
  langCurrent : Option String
  selectorValue : Option String
  dataTheme : Option String
  htmlClasses : List String
  bodyClasses : List String
deriving Repr, DecidableEq

/-- `classList.add`: append if not already present. -/
def addClass (cs : List String) (c : String) : List String :=
  if cs.contains c then cs else cs ++ [c]

/-- `classList.remove`. -/
def removeClass (cs : List String) (c : String) : List String :=
  cs.filter (fun x => x ≠ c)

/-- Character-level uppercasing covering the ASCII letters together
with the Czech lowercase letters that appear in the scripts' regular
expressions and string literals; all other characters (in particular
everything the all-caps allowlist accepts) are fixed points of JS
`toUpperCase` as well, so the approximation is exact on every input the
theorems below quantify over. -/
def upChar (c : Char) : Char :=
  if 'a' ≤ c ∧ c ≤ 'z' then Char.ofNat (c.toNat - 32)
  else match c with
    | 'á' => 'Á' | 'č' => 'Č' | 'ď' => 'Ď' | 'é' => 'É' | 'ě' => 'Ě'
    | 'í' => 'Í' | 'ň' => 'Ň' | 'ó' => 'Ó' | 'ř' => 'Ř' | 'š' => 'Š'
    | 'ť' => 'Ť' | 'ú' => 'Ú' | 'ů' => 'Ů' | 'ý' => 'Ý' | 'ž' => 'Ž'
    | c => c

/-- JS `String.prototype.toUpperCase` on the modelled alphabet. -/
def jsToUpper (s : String) : String := String.mk (s.data.map upChar)

/-- Mutable fields of the `LocalizationManager` instance
(localization.js:3-31). -/
structure ManagerState where
  currentLang : String
  currentTheme : String
  translations : List (String × JValue)
  initialized : Bool
  languageChanging : Bool
  eventListenersSetup : Bool
deriving Repr

/-- Events dispatched on `window`. -/
inductive Event where
  | languageChanged (lang : String)
deriving Repr, DecidableEq

/-- `LocalizationManager.updateTranslations` (localization.js:219-249):
bail out if the active catalog is missing or falsy; otherwise add the
transient `language-changing` body class, rewrite every `[data-key]`
element through `updateElement`, and update the document title when the
catalog has a truthy `site.title`.  (The `setTimeout` that removes the
transient class 100 ms later is the separate `settleTranslations`.) -/
def updateTranslations (st : ManagerState) (dom : Dom) : Dom :=
  match jsLookup st.translations st.currentLang with
  | none => dom
  | some cat =>
    if truthy cat then
      let dom := { dom with bodyClasses := addClass dom.bodyClasses "language-changing" }
      let dom := { dom with elements := dom.elements.map (updateElement cat) }
      match jsIndex cat "site" with
      | some site =>
        if truthy site then
          match jsIndex site "title" with
          | some t => if truthy t then { dom with title := jsToString t } else dom
          | none => dom
        else dom
      | none => dom
    else dom

/-- The timer callback scheduled at the end of `updateTranslations`
(localization.js:246-248): remove the transient body class. -/
def settleTranslations (dom : Dom) : Dom :=
  { dom with bodyClasses := removeClass dom.bodyClasses "language-changing" }

/-- `LocalizationManager.updateLanguageSelector` (localization.js:285-312)
restricted to its immediate effect: set the selector value to the
current language when the selector exists.  (The nested timers only
re-assert the same value; the retry when the node is absent is the
node-absent case of a later call.) -/
def updateLanguageSelectorModel (st : ManagerState) (dom : Dom) : Dom :=
  match dom.selectorValue with
  | some _ => { dom with selectorValue := some st.currentLang }
  | none => dom

/-- The result of a `setLanguage` call: the new manager state, DOM,
storage, and the list of events dispatched during the call. -/
structure SLResult where
  state : ManagerState
  dom : Dom
  store : Storage
  events : List Event
deriving Repr

/-- `LocalizationManager.setLanguage` (localization.js:186-217).  The
two guards come first: a call during the settling window is dropped,
and a call with the already-active language returns before any state,
storage or DOM write and before the event dispatch.  On acceptance the
method sets the re-entrancy flag, updates `currentLang`, persists the
language, updates the `.lang-current` text, the document `lang`
attribute and the selector, re-renders all translatable elements, and
dispatches `languageChanged`.  (The `setTimeout` clearing the flag
300 ms later is the separate `settleLanguage`.) -/
def setLanguage (st : ManagerState) (dom : Dom) (store : Storage) (lang : String) :
    SLResult :=
  if st.languageChanging then ⟨st, dom, store, []⟩
  else if lang = st.currentLang then ⟨st, dom, store, []⟩
  else
    let st := { st with languageChanging := true, currentLang := lang }
    let store := { store with language := some lang }
    let dom :=
      match dom.langCurrent with
      | some _ => { dom with langCurrent := some (jsToUpper lang) }
      | none => dom
    let dom := { dom with docLang := lang }
    let dom := updateLanguageSelectorModel st dom
    let dom := updateTranslations st dom
    ⟨st, dom, store, [Event.languageChanged lang]⟩

/-- The timer callback scheduled at the end of `setLanguage`
(localization.js:214-216): clear the re-entrancy flag. -/
def settleLanguage (st : ManagerState) : ManagerState :=
  { st with languageChanging := false }

/-- `LocalizationManager.setTheme` (localization.js:166-184): set and
persist the theme and toggle the theme markers on the document.  (The
theme-button icon update only touches a decorative node and is not
modelled.) -/
def setTheme (st : ManagerState) (dom : Dom) (store : Storage) (theme : String) :
    ManagerState × Dom × Storage :=
  let st := { st with currentTheme := theme }
  let store := { store with theme := some theme }
  let dom :=
    if theme = "dark" then
      { dom with dataTheme := some "dark",
                 htmlClasses := addClass dom.htmlClasses "dark-theme" }
    else
      { dom with dataTheme := none,
                 htmlClasses := removeClass dom.htmlClasses "dark-theme" }
  (st, dom, store)

/-- C1: calling `setLanguage` with the currently active language is a
no-op: the manager state, the DOM, the persisted storage are all
unchanged and no `languageChanged` event is dispatched.  This holds
whether or not the re-entrancy guard is set, because both early returns
precede every write (localization.js:188-189). -/
theorem setLanguage_same_lang_noop (st : ManagerState) (dom : Dom) (store : Storage)
    (lang : String) (h : lang = st.currentLang) :
    setLanguage st dom store lang = ⟨st, dom, store, []⟩ := by
  cases hst : st.languageChanging with
  | true => simp [setLanguage, hst]
  | false => simp [setLanguage, hst, h]

/-- Witness for the C1 theorem at a concrete state: switching to `"en"`
while `"en"` is active changes nothing and emits nothing. -/
theorem setLanguage_same_lang_noop_witness :
    setLanguage ⟨"en", "light", [], true, false, true⟩
        ⟨[⟨"nav.about", "A", "", "About", ""⟩], "en", "T", some "EN", some "en", none, [], []⟩
        ⟨some "en", some "light"⟩ "en"
      = ⟨⟨"en", "light", [], true, false, true⟩,
         ⟨[⟨"nav.about", "A", "", "About", ""⟩], "en", "T", some "EN", some "en", none, [], []⟩,
         ⟨some "en", some "light"⟩, []⟩ :=
  setLanguage_same_lang_noop _ _ _ _ rfl

/-- The concrete catalog of the C2 scenario. -/
def specCatalogC2 : JValue := .vObj [("a", .vObj [("b", .vStr "X")])]

example : truthy specCatalogC2 = true := rfl
example : getNestedTranslation (some specCatalogC2) "a.b" = some (.vStr "X") := rfl

/-- C2: with the catalog `{ "a": { "b": "X" } }` active, the render pass
rewrites each tagged element through `updateElement`; an element keyed
`a.b` gets text `X` (placeholder `X` when it is a non-submit INPUT),
while any element whose dotted key fails to resolve — in particular one
keyed `a.c` or `z.y` — is left exactly as it was.  All functions
involved are total, so no exception is possible. -/
theorem render_pass_c2 :
    (∀ (st : ManagerState) (dom : Dom),
        jsLookup st.translations st.currentLang = some specCatalogC2 →
        (updateTranslations st dom).elements
          = dom.elements.map (updateElement specCatalogC2)) ∧
    (∀ tg ty tx ph : String,
        (tg == "INPUT" && ty != "submit") = false →
        updateElement specCatalogC2 ⟨"a.b", tg, ty, tx, ph⟩ = ⟨"a.b", tg, ty, "X", ph⟩) ∧
    (∀ tg ty tx ph : String,
        (tg == "INPUT" && ty != "submit") = true →
        updateElement specCatalogC2 ⟨"a.b", tg, ty, tx, ph⟩ = ⟨"a.b", tg, ty, tx, "X"⟩) ∧
    (∀ e : Element, getNestedTranslation (some specCatalogC2) e.dataKey = none →
        updateElement specCatalogC2 e = e) ∧
    getNestedTranslation (some specCatalogC2) "a.c" = none ∧
    getNestedTranslation (some specCatalogC2) "z.y" = none := by
  refine ⟨?_, ?_, ?_, ?_, rfl, rfl⟩
  · intro st dom h
    simp [updateTranslations, h, specCatalogC2, truthy, jsIndex, jsLookup]
  · intro tg ty tx ph hc
    simp [updateElement, hc, truthy, jsToString,
      show getNestedTranslation (some specCatalogC2) "a.b" = some (JValue.vStr "X") from rfl]
  · intro tg ty tx ph hc
    simp [updateElement, hc, truthy, jsToString,
      show getNestedTranslation (some specCatalogC2) "a.b" = some (JValue.vStr "X") from rfl]
  · intro e hk
    unfold updateElement
    rw [hk]

/-- Witness for the C2 theorem: a DIV keyed `a.b` renders `X`, an INPUT
keyed `a.b` gets placeholder `X`, and elements keyed `a.c` and `z.y`
are untouched. -/
theorem render_pass_c2_witness :
    (updateTranslations ⟨"en", "light", [("en", specCatalogC2)], true, false, true⟩
        ⟨[⟨"a.b", "DIV", "", "old", ""⟩], "en", "T", none, none, none, [], []⟩).elements
      = [⟨"a.b", "DIV", "", "old", ""⟩].map (updateElement specCatalogC2) ∧
    updateElement specCatalogC2 ⟨"a.b", "DIV", "", "old", ""⟩
      = ⟨"a.b", "DIV", "", "X", ""⟩ ∧
    updateElement specCatalogC2 ⟨"a.b", "INPUT", "text", "old", "p"⟩
      = ⟨"a.b", "INPUT", "text", "old", "X"⟩ ∧
    updateElement specCatalogC2 ⟨"a.c", "DIV", "", "old", ""⟩
      = ⟨"a.c", "DIV", "", "old", ""⟩ ∧
    updateElement specCatalogC2 ⟨"z.y", "DIV", "", "old", ""⟩
      = ⟨"z.y", "DIV", "", "old", ""⟩ :=
  ⟨render_pass_c2.1 ⟨"en", "light", [("en", specCatalogC2)], true, false, true⟩
      ⟨[⟨"a.b", "DIV", "", "old", ""⟩], "en", "T", none, none, none, [], []⟩ rfl,
   render_pass_c2.2.1 "DIV" "" "old" "" rfl,
   render_pass_c2.2.2.1 "INPUT" "text" "old" "p" rfl,
   render_pass_c2.2.2.2.1 ⟨"a.c", "DIV", "", "old", ""⟩ rfl,
   render_pass_c2.2.2.2.1 ⟨"z.y", "DIV", "", "old", ""⟩ rfl⟩

/-- Plain path resolution without any truthiness filtering: descend
through object properties segment by segment.  `some v` means the
dotted path fully exists in the catalog and ends at `v`.  This is the
specification-side notion of "the path exists"; it is compared against
the code's `getNestedTranslation` below. -/
def resolvePath : JValue → List String → Option JValue
  | v, [] => some v
  | v, k :: ks =>
    match jsIndex v k with
    | some w => resolvePath w ks
    | none => none

/-- `splitCharList` never returns the empty list. -/
theorem splitCharList_ne_nil (sep : Char) (cs : List Char) :
    splitCharList sep cs ≠ [] := by
  cases cs with
  | nil => simp [splitCharList]
  | cons c rest =>
    unfold splitCharList
    split
    · simp
    · cases h : splitCharList sep rest <;> simp

/-- `splitKey` never returns the empty list (a dotted key has at least
one segment). -/
theorem splitKey_ne_nil (key : String) : splitKey key ≠ [] := by
  unfold splitKey
  intro h
  exact splitCharList_ne_nil '.' key.data (List.map_eq_nil_iff.mp h)

/-- Unfolding equation: one step of the lookup loop. -/
theorem getNestedAux_cons (cat : JValue) (k : String) (ks : List String) :
    getNestedAux (some cat) (k :: ks)
      = (if truthy cat then
          match jsIndex cat k with
          | some w => if truthy w then getNestedAux (some w) ks else none
          | none => none
        else none) := rfl

/-- Unfolding equation: one step of plain path resolution. -/
theorem resolvePath_cons (v : JValue) (k : String) (ks : List String) :
    resolvePath v (k :: ks)
      = (match jsIndex v k with
        | some w => resolvePath w ks
        | none => none) := rfl

/-- If a non-empty path fully resolves to a falsy value, the loop of
`getNestedTranslation` returns `null`: the truthiness guard rejects the
value at its step.  (Every intermediate value on a fully-existing path
is an object, hence truthy, so only the final value can trip the
guard.) -/
theorem getNestedAux_falsy_leaf (ks : List String) :
    ∀ (k : String) (cat v : JValue),
      resolvePath cat (k :: ks) = some v → truthy v = false →
      getNestedAux (some cat) (k :: ks) = none := by
  induction ks with
  | nil =>
    intro k cat v hr hf
    rw [resolvePath_cons] at hr
    rw [getNestedAux_cons]
    cases htc : truthy cat with
    | false => simp
    | true =>
      simp only [if_true]
      cases hj : jsIndex cat k with
      | none => simp
      | some w =>
        rw [hj] at hr
        simp only [resolvePath, Option.some.injEq] at hr
        subst hr
        simp [hf]
  | cons k2 ks ih =>
    intro k cat v hr hf
    rw [resolvePath_cons] at hr
    rw [getNestedAux_cons]
    cases htc : truthy cat with
    | false => simp
    | true =>
      simp only [if_true]
      cases hj : jsIndex cat k with
      | none => simp
      | some w =>
        rw [hj] at hr
        simp only []
        cases htw : truthy w with
        | false => simp
        | true => simp only [if_true]; exact ih k2 w v hr hf

/-- If the loop of `getNestedTranslation` returns a value on a
non-empty path, that value is truthy: the loop only ever advances
through values that passed the truthiness guard. -/
theorem getNestedAux_truthy (ks : List String) :
    ∀ (k : String) (cat v : JValue),
      getNestedAux (some cat) (k :: ks) = some v → truthy v = true := by
  induction ks with
  | nil =>
    intro k cat v h
    rw [getNestedAux_cons] at h
    cases htc : truthy cat with
    | false => rw [htc] at h; simp at h
    | true =>
      rw [htc] at h
      simp only [if_true] at h
      cases hj : jsIndex cat k with
      | none => rw [hj] at h; simp at h
      | some w =>
        rw [hj] at h
        cases htw : truthy w with
        | false => simp [htw] at h
        | true =>
          simp only [htw, if_true, getNestedAux, Option.some.injEq] at h
          subst h
          exact htw
  | cons k2 ks ih =>
    intro k cat v h
    rw [getNestedAux_cons] at h
    cases htc : truthy cat with
    | false => rw [htc] at h; simp at h
    | true =>
      rw [htc] at h
      simp only [if_true] at h
      cases hj : jsIndex cat k with
      | none => rw [hj] at h; simp at h
      | some w =>
        rw [hj] at h
        cases htw : truthy w with
        | false => simp [htw] at h
        | true =>
          simp only [htw, if_true] at h
          exact ih k2 w v h

/-- A successful `getNestedTranslation` result is always truthy. -/
theorem getNestedTranslation_truthy (cat : JValue) (key : String) (v : JValue)
    (h : getNestedTranslation (some cat) key = some v) : truthy v = true := by
  unfold getNestedTranslation at h
  cases hsk : splitKey key with
  | nil => exact absurd hsk (splitKey_ne_nil key)
  | cons k ks => rw [hsk] at h; exact getNestedAux_truthy ks k cat v h

/-- C10: a dotted key whose path fully exists in the active catalog but
ends at a falsy leaf (the empty string, `null`, `0` or `false`) behaves
exactly like a missing key: `getNestedTranslation` returns `null`
(the truthiness guard `translation && translation[k]` rejects the leaf)
and the render pass leaves the element's prior content unchanged, so an
empty-string translation can never blank out an element. -/
theorem falsy_leaf_like_missing (cat : JValue) (key : String) (v : JValue)
    (hres : resolvePath cat (splitKey key) = some v) (hfalsy : truthy v = false) :
    getNestedTranslation (some cat) key = none ∧
    (∀ e : Element, e.dataKey = key → updateElement cat e = e) := by
  have hnone : getNestedTranslation (some cat) key = none := by
    unfold getNestedTranslation
    cases hsk : splitKey key with
    | nil => exact absurd hsk (splitKey_ne_nil key)
    | cons k ks =>
      rw [hsk] at hres
      exact getNestedAux_falsy_leaf ks k cat v hres hfalsy
  refine ⟨hnone, ?_⟩
  intro e hk
  unfold updateElement
  rw [hk, hnone]

/-- Witness for the C10 theorem: catalog `{ "a": { "b": "" } }` with key
`a.b` — the path exists, the leaf is the empty string, the lookup
returns `null` and a concrete element keeps its prior text. -/
theorem falsy_leaf_like_missing_witness :
    getNestedTranslation (some (.vObj [("a", .vObj [("b", .vStr "")])])) "a.b" = none ∧
    updateElement (.vObj [("a", .vObj [("b", .vStr "")])]) ⟨"a.b", "DIV", "", "old", ""⟩
      = ⟨"a.b", "DIV", "", "old", ""⟩ :=
  ⟨(falsy_leaf_like_missing (.vObj [("a", .vObj [("b", .vStr "")])]) "a.b"
      (.vStr "") rfl rfl).1,
   (falsy_leaf_like_missing (.vObj [("a", .vObj [("b", .vStr "")])]) "a.b"
      (.vStr "") rfl rfl).2 ⟨"a.b", "DIV", "", "old", ""⟩ rfl⟩

/-- The render pass never changes an element's identifying attributes,
only its text or placeholder. -/
theorem updateElement_preserves_id (c : JValue) (e : Element) :
    (updateElement c e).dataKey = e.dataKey ∧
    (updateElement c e).tagName = e.tagName ∧
    (updateElement c e).inputType = e.inputType := by
  unfold updateElement
  split
  · exact ⟨rfl, rfl, rfl⟩
  · split
    · split
      · exact ⟨rfl, rfl, rfl⟩
      · exact ⟨rfl, rfl, rfl⟩
    · exact ⟨rfl, rfl, rfl⟩

/-- Rendering an element under catalog `cA` fully overwrites whatever a
previous render (under any catalog `cB`) wrote, provided the element's
key resolves in `cA`: the pass writes the resolved string into the same
slot (text or placeholder) it always uses for that element. -/
theorem updateElement_override (cA cB : JValue) (e : Element) (v : JValue)
    (h : getNestedTranslation (some cA) e.dataKey = some v) :
    updateElement cA (updateElement cB e) = updateElement cA e := by
  have htv : truthy v = true := getNestedTranslation_truthy cA e.dataKey v h
  cases hgB : getNestedTranslation (some cB) e.dataKey with
  | none => simp [updateElement, hgB, h, htv]
  | some w =>
    cases htw : truthy w with
    | false => simp [updateElement, hgB, htw, h, htv]
    | true =>
      cases hb : (e.tagName == "INPUT" && e.inputType != "submit") with
      | true => simp [updateElement, hgB, htw, hb, h, htv]
      | false => simp [updateElement, hgB, htw, hb, h, htv]

/-- When the active catalog is present and truthy, the render pass maps
`updateElement` over the tagged elements (the title / body-class writes
do not touch `elements`). -/
theorem updateTranslations_elements (st : ManagerState) (dom : Dom) (cat : JValue)
    (hl : jsLookup st.translations st.currentLang = some cat) (ht : truthy cat = true) :
    (updateTranslations st dom).elements = dom.elements.map (updateElement cat) := by
  unfold updateTranslations
  rw [hl]
  simp only [ht, if_true]
  repeat' split
  all_goals rfl

/-- `updateLanguageSelectorModel` does not touch the element list. -/
theorem updateLanguageSelectorModel_elements (st : ManagerState) (dom : Dom) :
    (updateLanguageSelectorModel st dom).elements = dom.elements := by
  unfold updateLanguageSelectorModel
  split <;> rfl

/-- An accepted `setLanguage` call (guard clear, different language)
produces the state with the guard set and the new language current. -/
theorem setLanguage_accept_state (st : ManagerState) (dom : Dom) (store : Storage)
    (lang : String) (hguard : st.languageChanging = false)
    (hne : ¬lang = st.currentLang) :
    (setLanguage st dom store lang).state
      = { st with languageChanging := true, currentLang := lang } := by
  unfold setLanguage
  rw [hguard]
  rw [if_neg (show ¬(false = true) by decide)]
  rw [if_neg hne]

/-- An accepted `setLanguage` call re-renders the elements under the
target catalog when that catalog is loaded and truthy (the other DOM
writes of the call do not touch `elements`). -/
theorem setLanguage_accept_elements (st : ManagerState) (dom : Dom) (store : Storage)
    (lang : String) (cat : JValue)
    (hguard : st.languageChanging = false) (hne : ¬lang = st.currentLang)
    (hl : jsLookup st.translations lang = some cat) (ht : truthy cat = true) :
    (setLanguage st dom store lang).dom.elements
      = dom.elements.map (updateElement cat) := by
  unfold setLanguage
  rw [hguard]
  rw [if_neg (show ¬(false = true) by decide)]
  rw [if_neg hne]
  have hl2 :
      jsLookup ({ st with languageChanging := true, currentLang := lang } :
          ManagerState).translations
        ({ st with languageChanging := true, currentLang := lang } :
          ManagerState).currentLang = some cat := hl
  show (updateTranslations { st with languageChanging := true, currentLang := lang }
      (updateLanguageSelectorModel { st with languageChanging := true, currentLang := lang }
        { (match dom.langCurrent with
            | some _ => { dom with langCurrent := some (jsToUpper lang) }
            | none => dom) with docLang := lang })).elements
    = dom.elements.map (updateElement cat)
  rw [updateTranslations_elements _ _ cat hl2 ht, updateLanguageSelectorModel_elements]
  cases dom.langCurrent <;> rfl

/-- Settling the guard of a state whose guard is already clear changes
nothing. -/
theorem settleLanguage_id (st : ManagerState) (h : st.languageChanging = false) :
    settleLanguage st = st := by
  cases st
  simp_all [settleLanguage]

/-- The C5 scenario: starting from manager state `st0` with language
`a` active, render once (establishing the initial A-state DOM), switch
to language `b` via `setLanguage`, let the re-entrancy guard settle,
and switch back to `a` via `setLanguage`. -/
def roundTripC5 (st0 : ManagerState) (dom0 : Dom) (store0 : Storage) (a b : String) :
    SLResult :=
  let domA := updateTranslations st0 dom0
  let r1 := setLanguage st0 domA store0 b
  setLanguage (settleLanguage r1.state) r1.dom r1.store a

/-- C5: with both catalogs loaded and truthy and `a` active, the
round trip `a` to `b` to `a` (guard clear at each call) leaves every
element whose translation key resolves in both catalogs with exactly
the rendered text it had in the initial A state. -/
theorem language_round_trip (st0 : ManagerState) (dom0 : Dom) (store0 : Storage)
    (a b : String) (catA catB : JValue)
    (hcur : st0.currentLang = a) (hguard : st0.languageChanging = false)
    (hA : jsLookup st0.translations a = some catA) (htA : truthy catA = true)
    (hB : jsLookup st0.translations b = some catB) (htB : truthy catB = true)
    (i : Nat) (e : Element)
    (he : (updateTranslations st0 dom0).elements[i]? = some e)
    (hkA : (getNestedTranslation (some catA) e.dataKey).isSome = true)
    (hkB : (getNestedTranslation (some catB) e.dataKey).isSome = true) :
    (roundTripC5 st0 dom0 store0 a b).dom.elements[i]? = some e := by
  have hA0 : jsLookup st0.translations st0.currentLang = some catA := by
    rw [hcur]; exact hA
  have hdomA : (updateTranslations st0 dom0).elements
      = dom0.elements.map (updateElement catA) :=
    updateTranslations_elements st0 dom0 catA hA0 htA
  by_cases hba : b = st0.currentLang
  · -- b coincides with the active language: both switches are no-ops.
    have e1 : setLanguage st0 (updateTranslations st0 dom0) store0 b
        = ⟨st0, updateTranslations st0 dom0, store0, []⟩ :=
      setLanguage_same_lang_noop _ _ _ _ hba
    have e3 : setLanguage st0 (updateTranslations st0 dom0) store0 a
        = ⟨st0, updateTranslations st0 dom0, store0, []⟩ :=
      setLanguage_same_lang_noop _ _ _ _ hcur.symm
    have hrt : roundTripC5 st0 dom0 store0 a b
        = ⟨st0, updateTranslations st0 dom0, store0, []⟩ := by
      simp only [roundTripC5, e1]
      rw [settleLanguage_id st0 hguard]
      exact e3
    rw [hrt]
    exact he
  · -- a genuine switch to b and back to a.
    obtain ⟨v, hv⟩ := Option.isSome_iff_exists.mp hkA
    -- the initial A-state element comes from rendering dom0 under catA
    rw [hdomA] at he
    rw [List.getElem?_map] at he
    obtain ⟨e0, he0, hee⟩ := Option.map_eq_some'.mp he
    -- the element list after the switch to b
    have hstate1 : (setLanguage st0 (updateTranslations st0 dom0) store0 b).state
        = { st0 with languageChanging := true, currentLang := b } :=
      setLanguage_accept_state _ _ _ _ hguard hba
    have helems1 : (setLanguage st0 (updateTranslations st0 dom0) store0 b).dom.elements
        = (updateTranslations st0 dom0).elements.map (updateElement catB) :=
      setLanguage_accept_elements _ _ _ _ catB hguard hba hB htB
    -- state after the guard settles
    have hstate2 : settleLanguage (setLanguage st0 (updateTranslations st0 dom0) store0 b).state
        = { st0 with languageChanging := false, currentLang := b } := by
      rw [hstate1]; rfl
    -- the switch back to a is accepted as well
    have hne2 : ¬a = ({ st0 with languageChanging := false, currentLang := b } :
        ManagerState).currentLang := by
      simp only []
      intro hab
      exact hba (by rw [← hab, hcur])
    have helems2 : (roundTripC5 st0 dom0 store0 a b).dom.elements
        = (setLanguage st0 (updateTranslations st0 dom0) store0 b).dom.elements.map
            (updateElement catA) := by
      simp only [roundTripC5]
      rw [hstate2]
      exact setLanguage_accept_elements _ _ _ _ catA rfl hne2 hA htA
    rw [helems2, helems1, hdomA]
    simp only [List.getElem?_map, he0, Option.map_some']
    -- pointwise: rendering under catA wipes out the intermediate catB render
    have hee2 : e.dataKey = e0.dataKey := by
      rw [← hee]; exact (updateElement_preserves_id catA e0).1
    have hv0 : getNestedTranslation (some catA) e0.dataKey = some v := by
      rw [← hee2]; exact hv
    have step1 : updateElement catA (updateElement catB (updateElement catA e0))
        = updateElement catA (updateElement catA e0) := by
      have hvA : getNestedTranslation (some catA)
          (updateElement catA e0).dataKey = some v := by
        rw [(updateElement_preserves_id catA e0).1]; exact hv0
      exact updateElement_override catA catB (updateElement catA e0) v hvA
    have step2 : updateElement catA (updateElement catA e0) = updateElement catA e0 :=
      updateElement_override catA catA e0 v hv0
    rw [step1, step2, hee]

/-- Witness for the C5 theorem: catalogs `{ "k": "Hello" }` (en) and
`{ "k": "Ahoj" }` (cs); after en to cs to en the element keyed `k`
again shows `Hello`, its initial A-state text. -/
theorem language_round_trip_witness :
    (roundTripC5
        ⟨"en", "light",
          [("en", .vObj [("k", .vStr "Hello")]), ("cs", .vObj [("k", .vStr "Ahoj")])],
          true, false, true⟩
        ⟨[⟨"k", "DIV", "", "", ""⟩], "en", "T", some "EN", some "en", none, [], []⟩
        ⟨some "en", some "light"⟩ "en" "cs").dom.elements[0]?
      = some ⟨"k", "DIV", "", "Hello", ""⟩ :=
  language_round_trip
    ⟨"en", "light",
      [("en", .vObj [("k", .vStr "Hello")]), ("cs", .vObj [("k", .vStr "Ahoj")])],
      true, false, true⟩
    ⟨[⟨"k", "DIV", "", "", ""⟩], "en", "T", some "EN", some "en", none, [], []⟩
    ⟨some "en", some "light"⟩ "en" "cs"
    (.vObj [("k", .vStr "Hello")]) (.vObj [("k", .vStr "Ahoj")])
    rfl rfl rfl rfl rfl rfl 0 ⟨"k", "DIV", "", "Hello", ""⟩ rfl rfl rfl

/-- Environment inputs read by the `LocalizationManager` constructor
(localization.js:3-25): the `lang` URL query parameter, the
`window._initialLanguage` / `window._initialTheme` globals set by the
inline bootstrap script of the host page, and the OS-level
`prefers-color-scheme: dark` media query result. -/
structure ConstructEnv where
  urlLang : Option String
  initialLanguage : Option String
  initialTheme : Option String
  prefersDark : Bool
deriving Repr, DecidableEq

/-- JS `a || b` where `a` is a nullable string and `b` a string:
`null` and the empty string are falsy. -/
def jsOrStr (a : Option String) (b : String) : String :=
  match a with
  | some s => if s = "" then b else s
  | none => b

/-- JS `a || b` on two nullable strings. -/
def orElseStr (a : Option String) (b : Option String) : Option String :=
  match a with
  | some s => if s = "" then b else some s
  | none => b

/-- Result of the language clause of the constructor
(localization.js:4-16): the resolved language, the possibly-updated
storage, and the possibly-updated `window._initialLanguage`. -/
structure LangResolution where
  lang : String
  store : Storage
  initialLanguageOut : Option String
deriving Repr, DecidableEq

/-- localization.js:4-16: a valid `?lang=` URL parameter (`en`/`cs`)
wins and is persisted and mirrored into `window._initialLanguage`;
otherwise `window._initialLanguage || localStorage.getItem("language")
|| "en"`. -/
def resolveLanguage (env : ConstructEnv) (store : Storage) : LangResolution :=
  match env.urlLang with
  | some s =>
    if s == "en" || s == "cs" then
      ⟨s, { store with language := some s }, some s⟩
    else
      ⟨jsOrStr env.initialLanguage (jsOrStr store.language "en"), store,
        env.initialLanguage⟩
  | none =>
    ⟨jsOrStr env.initialLanguage (jsOrStr store.language "en"), store,
      env.initialLanguage⟩

/-- Result of the theme clause of the constructor. -/
structure ThemeResolution where
  theme : String
  store : Storage
deriving Repr, DecidableEq

/-- localization.js:18-25: `window._initialTheme ||
localStorage.getItem("theme")`; when that is falsy, fall back to the OS
preference (`dark` when `prefers-color-scheme: dark` matches, `light`
otherwise) and persist the detected value. -/
def resolveTheme (env : ConstructEnv) (store : Storage) : ThemeResolution :=
  match orElseStr env.initialTheme store.theme with
  | some t =>
    if t = "" then
      let t2 := if env.prefersDark then "dark" else "light"
      ⟨t2, { store with theme := some t2 }⟩
    else ⟨t, store⟩
  | none =>
    let t2 := if env.prefersDark then "dark" else "light"
    ⟨t2, { store with theme := some t2 }⟩

/-- The full constructor output: fresh manager state plus the updated
storage and the updated `window._initialLanguage` global. -/
structure ConstructResult where
  state : ManagerState
  store : Storage
  initialLanguageOut : Option String
deriving Repr

/-- The `LocalizationManager` constructor (localization.js:3-31):
resolve language and theme, then initialise the remaining fields
(`translations = {}` and all flags false). -/
def constructManager (env : ConstructEnv) (store : Storage) : ConstructResult :=
  let lr := resolveLanguage env store
  let tr := resolveTheme env lr.store
  ⟨⟨lr.lang, tr.theme, [], false, false, false⟩, tr.store, lr.initialLanguageOut⟩

/-- The language clause never touches the stored theme. -/
theorem resolveLanguage_store_theme (env : ConstructEnv) (store : Storage) :
    (resolveLanguage env store).store.theme = store.theme := by
  unfold resolveLanguage
  cases env.urlLang with
  | none => rfl
  | some s =>
    by_cases h : (s == "en" || s == "cs") = true
    · simp [h]
    · simp [h]

/-- C9 counterexample: the constructor consults the inline bootstrap
value `window._initialTheme` before the saved value, so with
`_initialTheme = "light"` and stored theme `"dark"` the theme resolves
to `"light"`, contradicting the claimed saved-value-first order. -/
theorem theme_saved_first_counterexample :
    (constructManager ⟨none, none, some "light", true⟩ ⟨some "en", some "dark"⟩).state.currentTheme
        = "light" ∧
    ¬(constructManager ⟨none, none, some "light", true⟩ ⟨some "en", some "dark"⟩).state.currentTheme
        = "dark" := by
  constructor
  · rfl
  · intro h
    simp [constructManager, resolveLanguage, resolveTheme, orElseStr] at h

/-- C9 amended: theme resolution order is inline bootstrap value, then
previously saved value, then the OS preference signal (`dark` when the
OS prefers dark, else `light`); the OS-derived value is persisted
immediately, a saved or inline value is not rewritten.  In particular,
with no inline value, no stored value and the prefers-dark signal set,
the theme resolves to `dark` and `dark` is persisted. -/
theorem theme_resolution_amended (env : ConstructEnv) (store : Storage) :
    (env.initialTheme = none → store.theme = none → env.prefersDark = true →
      (constructManager env store).state.currentTheme = "dark" ∧
      (constructManager env store).store.theme = some "dark") ∧
    (env.initialTheme = none → store.theme = none → env.prefersDark = false →
      (constructManager env store).state.currentTheme = "light" ∧
      (constructManager env store).store.theme = some "light") ∧
    (∀ t, env.initialTheme = none → store.theme = some t → ¬t = "" →
      (constructManager env store).state.currentTheme = t ∧
      (constructManager env store).store.theme = some t) ∧
    (∀ t, env.initialTheme = some t → ¬t = "" →
      (constructManager env store).state.currentTheme = t) := by
  have hth : (resolveLanguage env store).store.theme = store.theme :=
    resolveLanguage_store_theme env store
  refine ⟨?_, ?_, ?_, ?_⟩
  · intro hit hst hpd
    have hcand : orElseStr env.initialTheme (resolveLanguage env store).store.theme
        = none := by rw [hit, hth, hst]; rfl
    constructor
    · show (resolveTheme env (resolveLanguage env store).store).theme = "dark"
      unfold resolveTheme
      rw [hcand, hpd]
      rfl
    · show (resolveTheme env (resolveLanguage env store).store).store.theme = some "dark"
      unfold resolveTheme
      rw [hcand, hpd]
      rfl
  · intro hit hst hpd
    have hcand : orElseStr env.initialTheme (resolveLanguage env store).store.theme
        = none := by rw [hit, hth, hst]; rfl
    constructor
    · show (resolveTheme env (resolveLanguage env store).store).theme = "light"
      unfold resolveTheme
      rw [hcand, hpd]
      rfl
    · show (resolveTheme env (resolveLanguage env store).store).store.theme = some "light"
      unfold resolveTheme
      rw [hcand, hpd]
      rfl
  · intro t hit hst hne
    have hcand : orElseStr env.initialTheme (resolveLanguage env store).store.theme
        = some t := by rw [hit, hth, hst]; rfl
    constructor
    · show (resolveTheme env (resolveLanguage env store).store).theme = t
      unfold resolveTheme
      rw [hcand]
      simp [hne]
    · show (resolveTheme env (resolveLanguage env store).store).store.theme = some t
      unfold resolveTheme
      rw [hcand]
      simp [hne, hth, hst]
  · intro t hit hne
    have hcand : orElseStr env.initialTheme (resolveLanguage env store).store.theme
        = some t := by rw [hit]; simp [orElseStr, hne]
    show (resolveTheme env (resolveLanguage env store).store).theme = t
    unfold resolveTheme
    rw [hcand]
    simp [hne]

/-- Witness for the amended C9 theorem: no inline value, no stored
value, prefers-dark set — the theme resolves to `dark` and `dark` is
persisted. -/
theorem theme_resolution_amended_witness :
    (constructManager ⟨none, none, none, true⟩ ⟨none, none⟩).state.currentTheme = "dark" ∧
    (constructManager ⟨none, none, none, true⟩ ⟨none, none⟩).store.theme = some "dark" :=
  (theme_resolution_amended ⟨none, none, none, true⟩ ⟨none, none⟩).1 rfl rfl rfl

/-- Outcome of one catalog load (`fetch` + `response.json()`): either
the parsed catalog, or a failure (network rejection or JSON parse
rejection — both surface as a rejected promise inside the `try`). -/
inductive FetchJson where
  | failure : FetchJson
  | success (v : JValue) : FetchJson
deriving Repr

/-- `LocalizationManager.finishLoading` (localization.js:325-331):
remove the `loading` body class and add `loaded` (the
`requestAnimationFrame` wrapper is modelled as the callback running). -/
def finishLoading (dom : Dom) : Dom :=
  { dom with bodyClasses := addClass (removeClass dom.bodyClasses "loading") "loaded" }

/-- `LocalizationManager.setupEventListeners` (localization.js:80-128)
restricted to its state/DOM effects: when the language selector exists,
mark listeners as set up, write the current language into the selector
and run a render pass.  (Listener registration itself and the
node-absent retry timer have no immediate state effect.) -/
def setupEventListenersModel (st : ManagerState) (dom : Dom) :
    ManagerState × Dom :=
  match dom.selectorValue with
  | some _ =>
    let st2 := { st with eventListenersSetup := true }
    let dom2 := { dom with selectorValue := some st2.currentLang }
    (st2, updateTranslations st2 dom2)
  | none => (st, dom)

/-- Result of an `init()` run: final state, DOM, storage, and the list
of `console.error` lines produced during the run. -/
structure InitResult where
  state : ManagerState
  dom : Dom
  store : Storage
  logs : List String
deriving Repr

/-- `LocalizationManager.init` (localization.js:33-78) with the two
catalog-load outcomes passed in explicitly.  On double call it returns
immediately.  On the success path it stores both catalogs, applies the
theme, wires listeners, calls `setLanguage(this.currentLang)` (a no-op
by the C1 theorem), updates the selector, removes the loading state via
`finishLoading`, and marks itself initialized.  On any load failure the
`catch` block runs: it only sets `initialized = true` — it does not
log, does not touch the DOM or storage, and in particular never calls
`finishLoading`.  The function is total: `init` never throws. -/
def initMgr (st : ManagerState) (dom : Dom) (store : Storage)
    (enF csF : FetchJson) : InitResult :=
  if st.initialized then ⟨st, dom, store, []⟩
  else
    match enF, csF with
    | .success enCat, .success csCat =>
      let st1 := { st with translations := setKey st.translations "en" enCat }
      let st2 := { st1 with translations := setKey st1.translations "cs" csCat }
      let (st3, dom3, store3) := setTheme st2 dom store st2.currentTheme
      let (st4, dom4) := setupEventListenersModel st3 dom3
      let r := setLanguage st4 dom4 store3 st4.currentLang
      let dom5 := updateLanguageSelectorModel r.state r.dom
      let dom6 := finishLoading dom5
      ⟨{ r.state with initialized := true }, dom6, r.store, []⟩
    | .success enCat, .failure =>
      -- `translations.en` was assigned before the cs parse rejected
      let st1 := { st with translations := setKey st.translations "en" enCat }
      ⟨{ st1 with initialized := true }, dom, store, []⟩
    | .failure, _ =>
      ⟨{ st with initialized := true }, dom, store, []⟩

/-- C3 counterexample: with a fresh manager and a body in the loading
state, a failing catalog fetch leaves `init` with an empty error log
(nothing is logged, contradicting "caught and logged") and the
`loading` class still on the body with `loaded` never added
(`finishLoading` is not reached on this path). -/
theorem init_failure_counterexample :
    (initMgr ⟨"en", "light", [], false, false, false⟩
        ⟨[], "en", "T", none, none, none, [], ["loading"]⟩
        ⟨none, none⟩ .failure .failure).logs = [] ∧
    (initMgr ⟨"en", "light", [], false, false, false⟩
        ⟨[], "en", "T", none, none, none, [], ["loading"]⟩
        ⟨none, none⟩ .failure .failure).dom.bodyClasses = ["loading"] := by
  exact ⟨rfl, rfl⟩

/-- C3 amended: if either catalog fetch fails during `init()`, the
error is caught silently (no log line is produced), the manager still
marks itself initialized, and `init()` never throws to its caller (the
model is a total function); however, the failure path performs no DOM
or storage write at all — in particular `finishLoading` is not invoked,
so the `loading` body class is not removed by `init()` on this path. -/
theorem init_failure_amended (st : ManagerState) (dom : Dom) (store : Storage)
    (enF csF : FetchJson)
    (hfail : enF = FetchJson.failure ∨ csF = FetchJson.failure) :
    (initMgr st dom store enF csF).state.initialized = true ∧
    (initMgr st dom store enF csF).logs = [] ∧
    (initMgr st dom store enF csF).dom = dom ∧
    (initMgr st dom store enF csF).store = store := by
  by_cases hinit : st.initialized = true
  · unfold initMgr
    rw [if_pos hinit]
    exact ⟨hinit, rfl, rfl, rfl⟩
  · have hinit2 : st.initialized = false := by
      cases h : st.initialized
      · rfl
      · exact absurd h hinit
    unfold initMgr
    rw [hinit2]
    rw [if_neg (show ¬(false = true) by decide)]
    cases enF with
    | failure => exact ⟨rfl, rfl, rfl, rfl⟩
    | success enCat =>
      cases csF with
      | failure => exact ⟨rfl, rfl, rfl, rfl⟩
      | success csCat =>
        rcases hfail with h | h <;> exact absurd h (by simp)

/-- Witness for the amended C3 theorem at the concrete failing input of
the counterexample. -/
theorem init_failure_amended_witness :
    (initMgr ⟨"en", "light", [], false, false, false⟩
        ⟨[], "en", "T", none, none, none, [], ["loading"]⟩
        ⟨none, none⟩ .failure (.success (.vObj []))).state.initialized = true ∧
    (initMgr ⟨"en", "light", [], false, false, false⟩
        ⟨[], "en", "T", none, none, none, [], ["loading"]⟩
        ⟨none, none⟩ .failure (.success (.vObj []))).logs = [] ∧
    (initMgr ⟨"en", "light", [], false, false, false⟩
        ⟨[], "en", "T", none, none, none, [], ["loading"]⟩
        ⟨none, none⟩ .failure (.success (.vObj []))).dom
      = ⟨[], "en", "T", none, none, none, [], ["loading"]⟩ ∧
    (initMgr ⟨"en", "light", [], false, false, false⟩
        ⟨[], "en", "T", none, none, none, [], ["loading"]⟩
        ⟨none, none⟩ .failure (.success (.vObj []))).store = ⟨none, none⟩ :=
  init_failure_amended ⟨"en", "light", [], false, false, false⟩
    ⟨[], "en", "T", none, none, none, [], ["loading"]⟩
    ⟨none, none⟩ .failure (.success (.vObj [])) (Or.inl rfl)

/-- The JS whitespace class (as used by `trim` and `\s`), restricted to
the code points occurring in the repository's documents: ASCII
whitespace plus the no-break space.  (The exotic Unicode space code
points of the full JS class are not modelled; they appear nowhere in
the sources.) -/
def jsIsSpace (c : Char) : Bool :=
  c == ' ' || c == '\t' || c == '\n' || c == '\r' || c.toNat == 11 ||
    c.toNat == 12 || c.toNat == 160

/-- JS `String.prototype.trim`. -/
def jsTrim (s : String) : String :=
  String.mk (((s.data.dropWhile jsIsSpace).reverse.dropWhile jsIsSpace).reverse)

/-- JS `text.split("\n")`. -/
def splitLines (text : String) : List String :=
  (splitCharList '\n' text.data).map (fun l => String.mk l)

/-- Prefix test on character lists (JS `startsWith`). -/
def leadsChars : List Char → List Char → Bool
  | [], _ => true
  | _ :: _, [] => false
  | p :: ps, c :: cs => p == c && leadsChars ps cs

/-- Substring occurrence test (second argument occurs in first). -/
def hasSubChars : List Char → List Char → Bool
  | [], pat => pat.isEmpty
  | c :: rest, pat => leadsChars pat (c :: rest) || hasSubChars rest pat

/-- JS `String.prototype.includes`. -/
def strIncludes (s pat : String) : Bool :=
  hasSubChars s.data pat.data

/-- Suffix test (JS `endsWith`). -/
def endsWithChars (cs pat : List Char) : Bool :=
  leadsChars pat.reverse cs.reverse

/-- Number of (possibly overlapping) occurrences of `pat` in `s`. -/
def countSubChars : List Char → List Char → Nat
  | [], _ => 0
  | c :: rest, pat =>
    (if leadsChars pat (c :: rest) then 1 else 0) + countSubChars rest pat

/-- Occurrence count at the string level. -/
def countSub (s pat : String) : Nat := countSubChars s.data pat.data

/-- Split a character list at the first `**`, returning the part before
and the part after the two stars (policy-loader.js regex `\*\*`). -/
def splitAtStars : List Char → Option (List Char × List Char)
  | [] => none
  | '*' :: '*' :: rest => some ([], rest)
  | c :: rest =>
    match splitAtStars rest with
    | some (a, b) => some (c :: a, b)
    | none => none

/-- Global replace of `/\*\*(.*?)\*\*/g` by `<strong>$1</strong>`
(policy-loader.js:152, 206): find the leftmost `**`, the lazy group
runs to the next `**`; if no closing pair exists the text is left
unchanged from there on.  Fuel is the remaining length; every step
consumes at least four characters, so the initial fuel suffices. -/
def boldGo : Nat → List Char → List Char
  | 0, cs => cs
  | fuel + 1, cs =>
    match splitAtStars cs with
    | none => cs
    | some (pre, rest1) =>
      match splitAtStars rest1 with
      | none => cs
      | some (mid, rest2) =>
        pre ++ "<strong>".data ++ mid ++ "</strong>".data ++ boldGo fuel rest2

/-- Bold replacement at the character-list level. -/
def boldReplace (cs : List Char) : List Char := boldGo cs.length cs

/-- Match `https?:\/\/` at the head of the list, returning the matched
scheme (with `://`) and the remainder.  Mirrors the regex backtracking:
`https://` is preferred, plain `http://` otherwise. -/
def stripScheme : List Char → Option (List Char × List Char)
  | 'h' :: 't' :: 't' :: 'p' :: rest =>
    match rest with
    | 's' :: ':' :: '/' :: '/' :: r => some ("https://".data, r)
    | ':' :: '/' :: '/' :: r => some ("http://".data, r)
    | _ => none
  | _ => none

/-- Attempt to match the tail of `/\[([^\]]+)\]\((https?:\/\/[^)]+)\)/`
immediately after an opening `[`: a non-empty label up to the first
`]`, then `](`, then the scheme, then a non-empty URL remainder up to
the first `)`, then `)`.  Returns `(label, url, rest)`. -/
def tryLink (cs : List Char) : Option (List Char × List Char × List Char) :=
  let label := cs.takeWhile (fun c => c != ']')
  let r1 := cs.dropWhile (fun c => c != ']')
  if label.isEmpty then none
  else
    match r1 with
    | ']' :: '(' :: r2 =>
      match stripScheme r2 with
      | some (proto, r3) =>
        let urlRest := r3.takeWhile (fun c => c != ')')
        let r4 := r3.dropWhile (fun c => c != ')')
        if urlRest.isEmpty then none
        else
          match r4 with
          | ')' :: r5 => some (label, proto ++ urlRest, r5)
          | _ => none
      | none => none
    | _ => none

/-- The anchor replacement template
`<a href="$2" target="_blank" rel="noopener noreferrer"
class="text-link">$1</a>` shared by both link conversions
(policy-loader.js:158, 165, 212, 219). -/
def anchorChars (url label : List Char) : List Char :=
  "<a href=\"".data ++ url
    ++ "\" target=\"_blank\" rel=\"noopener noreferrer\" class=\"text-link\">".data
    ++ label ++ "</a>".data

/-- Global replace of the markdown link pattern: scan left to right; at
each `[` try the full pattern, replacing on success and advancing one
character on failure (exactly the regex engine's behaviour).  Fuel is
the remaining length; every step consumes at least one character. -/
def linkGo : Nat → List Char → List Char
  | 0, cs => cs
  | _ + 1, [] => []
  | fuel + 1, '[' :: rest =>
    match tryLink rest with
    | some (label, url, r5) => anchorChars url label ++ linkGo fuel r5
    | none => '[' :: linkGo fuel rest
  | fuel + 1, c :: rest => c :: linkGo fuel rest

/-- Markdown-link replacement at the character-list level. -/
def hiddenLinkReplace (cs : List Char) : List Char := linkGo cs.length cs

/-- The `.test()` of the markdown link pattern
(policy-loader.js:155, 209). -/
def hasHiddenLink : List Char → Bool
  | [] => false
  | '[' :: rest => (tryLink rest).isSome || hasHiddenLink rest
  | _ :: rest => hasHiddenLink rest

/-- Global replace of `/(https?:\/\/[^\s]+)/g` by an anchor whose href
and text are the match (policy-loader.js:163-166, 217-220): at each
position try the scheme followed by a non-empty run of non-whitespace
characters. -/
def autoGo : Nat → List Char → List Char
  | 0, cs => cs
  | _ + 1, [] => []
  | fuel + 1, c :: rest =>
    match stripScheme (c :: rest) with
    | some (proto, r) =>
      let tail := r.takeWhile (fun ch => !jsIsSpace ch)
      let r2 := r.dropWhile (fun ch => !jsIsSpace ch)
      if tail.isEmpty then c :: autoGo fuel rest
      else anchorChars (proto ++ tail) (proto ++ tail) ++ autoGo fuel r2
    | none => c :: autoGo fuel rest

/-- Bare-URL autolinking at the character-list level. -/
def autolinkReplace (cs : List Char) : List Char := autoGo cs.length cs

/-- The shared inline pipeline applied to bullet and paragraph content
(policy-loader.js:151-167 and 205-221): bold replacement, then the
markdown-link test on the bolded text, then the markdown-link
replacement, then bare-URL autolinking only if no markdown link was
present. -/
def inlineFormat (cs : List Char) : List Char :=
  let cs1 := boldReplace cs
  let hasH := hasHiddenLink cs1
  let cs2 := hiddenLinkReplace cs1
  if hasH then cs2 else autolinkReplace cs2

/-- The fixed bilingual list of known section titles
(policy-loader.js:112-127). -/
def knownHeadlines : List String :=
  ["Privacy Policy", "Data Collection and Use", "Locally Stored Data", "Security",
   "Changes", "Effective Date", "Your Consent", "Contact", "INTRODUCTION", "Introduction",
   "Personal data collection", "IP addresses and server processing",
   "Third-party services – Google Fonts",
   "Children", "DATA WE COLLECT", "PURPOSES & LEGAL BASES (GDPR/UK GDPR)", "YOUR CHOICES",
   "CHILDREN & TEENS", "DATA RETENTION", "SHARING & TRANSFERS", "SECURITY",
   "YOUR PRIVACY RIGHTS",
   "CALOPPA", "INTERNATIONAL USERS", "CHANGES", "CONTACT",
   "Zásady ochrany osobních údajů", "Shromažďování a používání údajů",
   "Lokálně uložená data",
   "Zabezpečení", "Změny", "Platnost zásad od", "Souhlas uživatele", "Kontakt",
   "ÚVOD", "Úvod",
   "Shromažďování osobních údajů", "IP adresy a serverové zpracování",
   "Externí služby – Google Fonts",
   "Děti", "Změny zásad", "DATA, KTERÁ SHROMAŽĎUJEME",
   "ÚČELY A PRÁVNÍ ZÁKLADY (GDPR/UK GDPR)",
   "VAŠE MOŽNOSTI", "DĚTI A TEENAGEŘI", "UCHOVÁVÁNÍ DAT", "SDÍLENÍ A PŘENOSY",
   "ZABEZPEČENÍ",
   "VAŠE PRÁVA NA OCHRANU SOUKROMÍ", "MEZINÁRODNÍ UŽIVATELÉ", "ZMĚNY", "KONTAKT"]

/-- One character of the all-caps allowlist
`[A-ZÁČĎÉĚÍŇÓŘŠŤÚŮÝŽ\s&()\/–-]` (policy-loader.js:185). -/
def allCapsAllowedChar (c : Char) : Bool :=
  ('A' ≤ c && c ≤ 'Z') || "ÁČĎÉĚÍŇÓŘŠŤÚŮÝŽ".data.contains c || jsIsSpace c ||
    c == '&' || c == '(' || c == ')' || c == '/' || c == '–' || c == '-'

/-- The `isAllCaps` test (policy-loader.js:183-185): the trimmed line
equals its uppercasing, has more than three characters, and consists
only of allowlisted characters (the regex `^[...]+$` also demands at
least one character).  All allowlisted characters are fixed points of
`toUpperCase`, so the modelled `jsToUpper` is exact here. -/
def isAllCaps (t : String) : Bool :=
  t == jsToUpper t && t.length > 3 && !t.data.isEmpty &&
    t.data.all allCapsAllowedChar

/-- The `looksLikeHeading` test (policy-loader.js:191-200). -/
def looksLikeHeading (t : String) : Bool :=
  t.length < 80 && t.length > 2 &&
  !endsWithChars t.data ".".data && !endsWithChars t.data ",".data &&
  !strIncludes t "@" && !strIncludes t "http" && !strIncludes t "[" &&
  !strIncludes t "](" && !strIncludes t ":" &&
  !(match t.data with
    | c :: _ => c.isDigit
    | [] => false)

/-- One iteration of the formatting loop (policy-loader.js:129-225) for
a line, given the trimmed previous and next lines (empty string at the
document boundaries) and whether a list is currently open.  Returns the
emitted HTML chunk and the new in-list flag.  Branch order matches the
source: blank line, bullet line, then heading classification
(`isKnownHeadline || isAllCaps || (isStandaloneHeading &&
looksLikeHeading)`), else paragraph. -/
def formatStep (prev next : String) (inList : Bool) (line : String) :
    String × Bool :=
  let t := jsTrim line
  if t == "" then
    (if inList then "</ul>\n" else "", false)
  else if leadsChars "• ".data t.data || leadsChars "- ".data t.data then
    let openTag := if inList then "" else "<ul>\n"
    let content := inlineFormat (t.data.drop 2)
    (openTag ++ "<li>" ++ String.mk content ++ "</li>\n", true)
  else
    let closeTag := if inList then "</ul>\n" else ""
    if knownHeadlines.contains t || isAllCaps t ||
        (prev == "" && next == "" && looksLikeHeading t) then
      (closeTag ++ "<h3>" ++ t ++ "</h3>\n", false)
    else
      (closeTag ++ "<p>" ++ String.mk (inlineFormat t.data) ++ "</p>\n", false)

/-- The formatting loop over the line list, threading the in-list flag
and providing each line its trimmed neighbours; a list left open at the
end of the document is closed (policy-loader.js:228-230). -/
def formatLines (prev : String) (inList : Bool) : List String → String
  | [] => if inList then "</ul>\n" else ""
  | l :: rest =>
    let next :=
      match rest with
      | [] => ""
      | r :: _ => jsTrim r
    let step := formatStep prev next inList l
    step.1 ++ formatLines (jsTrim l) step.2 rest

/-- The body of `PolicyLoader.formatPolicyContent`
(policy-loader.js:105-233): split the document into lines and run the
formatting loop.  The body reads nothing but its `text` argument. -/
def formatDoc (text : String) : String :=
  formatLines "" false (splitLines text)

/-- The mutable state of the `PolicyLoader` instance that is visible to
its methods (`this.currentLanguage`). -/
structure LoaderState where
  currentLanguage : String
deriving Repr, DecidableEq

/-- `PolicyLoader.formatPolicyContent` as a method: it receives the
instance state but its body never reads `this`, only the `text`
parameter (policy-loader.js:105-233). -/
def PolicyLoader.formatPolicyContent (st : LoaderState) (text : String) : String :=
  formatDoc text

/-- Outcome of the policy `fetch`: a network rejection, or a response
with its `ok` flag and body text. -/
inductive FetchText where
  | networkError : FetchText
  | response (ok : Bool) (body : String) : FetchText
deriving Repr

/-- The `try` body of `PolicyLoader.loadPolicyContent`
(policy-loader.js:82-92) after the fetch resolves: a rejected fetch or
a non-`ok` response throws (the code raises on `!response.ok`);
otherwise the fetched text is formatted.  `formatDoc` is total, so
formatting itself cannot throw in the model; a hypothetical formatting
exception would reach the same `catch`. -/
def loadPolicyAttempt : FetchText → Except Unit String
  | .networkError => .error ()
  | .response ok body => if ok then .ok (formatDoc body) else .error ()

/-- The hard-coded inline error markup of the `catch` block
(policy-loader.js:94-102): Czech text when the active language is
`cs`, English text otherwise, independent of the translation catalog. -/
def policyErrorHtml (lang : String) : String :=
  "<p style=\"color: var(--error-color, #e53e3e);\">"
    ++ (if lang = "cs" then "Chyba při načítání obsahu. Zkuste to prosím znovu."
        else "Error loading content. Please try again.")
    ++ "</p>"

/-- `PolicyLoader.loadPolicyContent` reduced to the container content
it produces (policy-loader.js:54-103): the formatted document on
success, the hard-coded per-language error paragraph on any failure.
Total function: the error is consumed by the `catch`, never propagated
to the caller. -/
def PolicyLoader.loadPolicyContent (st : LoaderState) (f : FetchText) : String :=
  match loadPolicyAttempt f with
  | .ok html => html
  | .error _ => policyErrorHtml st.currentLanguage

/-- C4 counterexample: the line `"- FOO"` satisfies the claimed
premise — all capitals, length at least 4, only letters, spaces and
allowlisted punctuation (`-` is in the allowlist) — yet the formatter
emits a list item, not a heading, because the bullet branch is checked
before heading classification (policy-loader.js:144). -/
theorem allcaps_bullet_counterexample :
    isAllCaps (jsTrim "- FOO") = true ∧
    formatDoc "- FOO" = "<ul>\n<li>FOO</li>\n</ul>\n" ∧
    countSub (formatDoc "- FOO") "<h3" = 0 :=
  ⟨rfl, rfl, rfl⟩

/-- C4 amended: a line passing the all-caps test (all capitals, more
than three characters, only letters/spaces/allowlisted punctuation) is
classified as a heading regardless of its neighbours, provided its
trimmed form does not begin with a bullet marker (`• ` or `- `); a line
beginning with `- ` is emitted as a list item instead. -/
theorem allcaps_heading_amended (prev next line : String) (inList : Bool)
    (hcaps : isAllCaps (jsTrim line) = true)
    (hb1 : leadsChars "• ".data (jsTrim line).data = false)
    (hb2 : leadsChars "- ".data (jsTrim line).data = false) :
    formatStep prev next inList line
      = ((if inList then "</ul>\n" else "") ++ "<h3>" ++ jsTrim line ++ "</h3>\n",
          false) := by
  have hne : (jsTrim line == "") = false := by
    cases h : (jsTrim line == "") with
    | false => rfl
    | true =>
      have he : jsTrim line = "" := eq_of_beq h
      rw [he] at hcaps
      exact absurd hcaps (by decide)
  simp only [formatStep, hne, hb1, hb2, hcaps, Bool.false_eq_true, if_false,
    Bool.or_self, Bool.or_true, Bool.true_or, Bool.or_false, if_true]

/-- Witness for the amended C4 theorem: `"FOO BAR"` with a non-blank
neighbour and an open list still becomes a heading (after the list is
closed). -/
theorem allcaps_heading_amended_witness :
    formatStep "" "x" true "FOO BAR" = ("</ul>\n<h3>FOO BAR</h3>\n", false) :=
  allcaps_heading_amended "" "x" "FOO BAR" true rfl rfl rfl

set_option maxRecDepth 16384 in
/-- C6: formatting the single line
`"[Contact us](https://example.com/contact)"` surrounded by blank lines
yields one paragraph with exactly one anchor: the markdown-link test
succeeds, so bare-URL autolinking is suppressed for the line and the
URL inside the generated `href` is not linked a second time. -/
theorem bracket_link_single_anchor :
    formatDoc "\n[Contact us](https://example.com/contact)\n"
      = "<p><a href=\"https://example.com/contact\" target=\"_blank\" rel=\"noopener noreferrer\" class=\"text-link\">Contact us</a></p>\n" ∧
    countSub (formatDoc "\n[Contact us](https://example.com/contact)\n") "<a href" = 1 ∧
    countSub (formatDoc "\n[Contact us](https://example.com/contact)\n") "<p>" = 1 ∧
    countSub (formatDoc "\n[Contact us](https://example.com/contact)\n") "</p>" = 1 :=
  ⟨rfl, rfl, rfl, rfl⟩

/-- C8: `formatPolicyContent` is a pure, deterministic function of the
document text alone — two runs on identical input from arbitrary (and
possibly different) loader states, in particular different active
languages, produce identical HTML. -/
theorem formatPolicyContent_pure_deterministic (s1 s2 : LoaderState)
    (t1 t2 : String) (h : t1 = t2) :
    PolicyLoader.formatPolicyContent s1 t1 = PolicyLoader.formatPolicyContent s2 t2 := by
  subst h
  rfl

/-- Witness for the C8 theorem: formatting the same text under `en` and
under `cs` states gives the same result. -/
theorem formatPolicyContent_pure_deterministic_witness :
    PolicyLoader.formatPolicyContent ⟨"en"⟩ "Contact\nhttps://example.com"
      = PolicyLoader.formatPolicyContent ⟨"cs"⟩ "Contact\nhttps://example.com" :=
  formatPolicyContent_pure_deterministic ⟨"en"⟩ ⟨"cs"⟩
    "Contact\nhttps://example.com" "Contact\nhttps://example.com" rfl

/-- C7: on any failed policy load (network rejection or non-`ok`
response — both reach the `catch`), the container content becomes the
hard-coded inline error paragraph in the current language: Czech when
the active language is `cs`, English otherwise, independent of the
translation catalog; the total model never propagates the error. -/
theorem load_policy_error_path (st : LoaderState) (f : FetchText)
    (h : loadPolicyAttempt f = .error ()) :
    PolicyLoader.loadPolicyContent st f = policyErrorHtml st.currentLanguage ∧
    (st.currentLanguage = "cs" →
      PolicyLoader.loadPolicyContent st f
        = "<p style=\"color: var(--error-color, #e53e3e);\">Chyba při načítání obsahu. Zkuste to prosím znovu.</p>") ∧
    (¬st.currentLanguage = "cs" →
      PolicyLoader.loadPolicyContent st f
        = "<p style=\"color: var(--error-color, #e53e3e);\">Error loading content. Please try again.</p>") := by
  have hmain : PolicyLoader.loadPolicyContent st f = policyErrorHtml st.currentLanguage := by
    unfold PolicyLoader.loadPolicyContent
    rw [h]
  refine ⟨hmain, ?_, ?_⟩
  · intro hcs
    rw [hmain]
    unfold policyErrorHtml
    rw [if_pos hcs]
    rfl
  · intro hcs
    rw [hmain]
    unfold policyErrorHtml
    rw [if_neg hcs]
    rfl

/-- Witness for the C7 theorem: a non-`ok` response with active
language `cs` produces the Czech inline error paragraph. -/
theorem load_policy_error_path_witness :
    PolicyLoader.loadPolicyContent ⟨"cs"⟩ (.response false "irrelevant")
      = "<p style=\"color: var(--error-color, #e53e3e);\">Chyba při načítání obsahu. Zkuste to prosím znovu.</p>" :=
  (load_policy_error_path ⟨"cs"⟩ (.response false "irrelevant") rfl).2.1 rfl
